import Mathlib

/-!
Verification of the polling/synchronization core of the Testing_Selenium
repository against its specification.

The repository's source (src/01_wait_strategies.py, src/01_page_object_model.py)
calls selenium's WebDriverWait; the generic wait engine itself (awaitCondition,
ConditionOutcome, WaitSpec, ImplicitWaitPolicy) is described only by the spec,
so those parts are modelled from the spec's words.  Page-object methods, the
custom wait conditions and the test fixture code are embedded directly from the
source files.

Time is simulated: the engine evaluates the predicate at instants 0, P, 2P, ...
(poll interval P), evaluation itself being instantaneous.  Predicates and the
cancellation signal are functions of the current simulated time in milliseconds.
-/

/-- Error kinds raised by the remote query mechanism (spec section 6). -/
inductive ErrorKind where
  | NotFound
  | StaleReference
  | SessionLost
  | InvalidLocator
  | Other
deriving DecidableEq, Repr

/-- Modelled from the spec: ConditionOutcome, the tagged variant
Pending / Satisfied(payload) / Failed(error) returned by one evaluation tick
of a condition predicate (spec section 3). -/
inductive ConditionOutcome (α : Type) where
  | Pending
  | Satisfied (payload : α)
  | Failed (error : ErrorKind)
deriving DecidableEq, Repr

/-- Whether an outcome is the Satisfied variant. -/
def ConditionOutcome.isSatisfied {α : Type} : ConditionOutcome α → Bool
  | .Satisfied _ => true
  | _ => false

/-- Modelled from the spec: WaitSpec, the engine's configuration record
(spec section 3).  Durations are in milliseconds. -/
structure WaitSpec where
  timeout : Nat
  pollInterval : Nat
  ignorable : List ErrorKind
  message : Option String
deriving DecidableEq, Repr

/-- Modelled from the spec: PollResult, the success record of awaitCondition
(spec section 3). -/
structure PollResult (α : Type) where
  payload : α
  elapsed : Nat
  attempts : Nat
deriving DecidableEq, Repr

/-- Modelled from the spec: the failure outcomes of awaitCondition (spec
sections 4.1 and 7).  Each variant carries the elapsed simulated time and the
attempt count at the moment it is raised, so that timing claims can be
stated. -/
inductive WaitError where
  | TimeoutExceeded (elapsed attempts : Nat) (message : Option String)
  | CancelledByCaller (elapsed attempts : Nat)
  | Propagated (error : ErrorKind) (elapsed attempts : Nat)
deriving DecidableEq, Repr

instance {ε α : Type} [DecidableEq ε] [DecidableEq α] : DecidableEq (Except ε α) := fun x y =>
  match x, y with
  | .ok a, .ok b =>
    if h : a = b then .isTrue (by rw [h]) else .isFalse (by intro hc; cases hc; exact h rfl)
  | .ok _, .error _ => .isFalse (by intro hc; cases hc)
  | .error _, .ok _ => .isFalse (by intro hc; cases hc)
  | .error a, .error b =>
    if h : a = b then .isTrue (by rw [h]) else .isFalse (by intro hc; cases hc; exact h rfl)

/-- Modelled from the spec: one step of the WaitEngine loop (spec section 4.1),
with explicit fuel.  At tick time `t` (a multiple of the poll interval,
counting from the engine's start) the engine first checks the deadline — per
the spec's tie-break, satisfaction must come from a tick that started before
the deadline and the engine never evaluates at or past the nominal deadline —
then evaluates the predicate once: Satisfied returns immediately, a Failed
with a non-ignorable kind propagates immediately, otherwise the cancellation
signal is consulted and the engine sleeps one poll interval and retries.
`a` counts the evaluations performed so far.  The fuel-exhausted base case is
unreachable for `pollInterval > 0` when called through `awaitCondition`. -/
def awaitConditionAux {α : Type} (pred : Nat → ConditionOutcome α)
    (cancelled : Nat → Bool) (spec : WaitSpec) :
    Nat → Nat → Nat → Except WaitError (PollResult α)
  | 0, t, a => .error (.TimeoutExceeded t a spec.message)
  | fuel + 1, t, a =>
    if spec.timeout ≤ t then
      .error (.TimeoutExceeded t a spec.message)
    else
      match pred t with
      | .Satisfied x => .ok ⟨x, t, a + 1⟩
      | .Failed e =>
        if spec.ignorable.contains e then
          if cancelled t then .error (.CancelledByCaller t (a + 1))
          else awaitConditionAux pred cancelled spec fuel (t + spec.pollInterval) (a + 1)
        else .error (.Propagated e t (a + 1))
      | .Pending =>
        if cancelled t then .error (.CancelledByCaller t (a + 1))
        else awaitConditionAux pred cancelled spec fuel (t + spec.pollInterval) (a + 1)

/-- Modelled from the spec: WaitEngine.awaitCondition (spec section 4.1).  The
engine itself is not in src/ — the source files call selenium's WebDriverWait —
so the loop is modelled from the spec's algorithm.  The fuel bound
`timeout / pollInterval + 2` exceeds the number of ticks the loop can take
whenever `pollInterval > 0`. -/
def awaitCondition {α : Type} (pred : Nat → ConditionOutcome α)
    (cancelled : Nat → Bool) (spec : WaitSpec) : Except WaitError (PollResult α) :=
  awaitConditionAux pred cancelled spec (spec.timeout / spec.pollInterval + 2) 0 0

/-- The WaitSpec used by demonstrate_fluent_wait in src/01_wait_strategies.py
(timeout 10 s, poll 0.5 s there), scaled to the spec's scenario values
timeout 2000 ms, poll 250 ms, with the spec's default ignorable kinds. -/
def specFluent : WaitSpec := ⟨2000, 250, [.NotFound, .StaleReference], none⟩

/-- A predicate that is never Satisfied: the target stays absent, as in
demonstrate_wait_timeout_handling's search for a non-existent id. -/
def predNever : Nat → ConditionOutcome Unit := fun _ => .Pending

/-- No cancellation signal is ever raised. -/
def cancelNever : Nat → Bool := fun _ => false

/-- A presence predicate whose target appears at simulated time 600 ms. -/
def predFrom600 : Nat → ConditionOutcome Unit :=
  fun s => if 600 ≤ s then .Satisfied () else .Pending

/-- A presence predicate whose target appears exactly at the 2000 ms
deadline. -/
def predFrom2000 : Nat → ConditionOutcome Unit :=
  fun s => if 2000 ≤ s then .Satisfied () else .Pending

/-- A predicate that reports an infrastructure failure on its first
evaluation. -/
def predSessionLost : Nat → ConditionOutcome Unit := fun _ => .Failed .SessionLost


/-- An element handle as the condition predicates and page objects see it:
visibility and enabledness flags, its text, and its "value" attribute. -/
structure Element where
  displayed : Bool
  enabled : Bool
  text : String
  value : String
deriving DecidableEq, Repr

/-- Python-level exceptions raised by the selenium calls that the source
wraps. -/
inductive PyErr where
  | TimeoutException
  | NoSuchElementException
  | AttributeError
  | WebDriverError (kind : ErrorKind)
deriving DecidableEq, Repr

/-- BasePage.find_element (src/01_page_object_model.py lines 38-40): returns
the outcome of `self.wait.until(EC.presence_of_element_located(locator))`
unchanged.  The argument is that awaited outcome: an element on success, the
raised exception otherwise. -/
def BasePage.find_element (untilPresent : Except PyErr Element) :
    Except PyErr Element :=
  untilPresent

/-- BasePage.get_text (lines 57-60): find the element, then read its text. -/
def BasePage.get_text (untilPresent : Except PyErr Element) :
    Except PyErr String :=
  (BasePage.find_element untilPresent).map Element.text

/-- BasePage.click_element (lines 46-49): await clickability, then click. -/
def BasePage.click_element (untilClickable : Except PyErr Element) :
    Except PyErr Unit :=
  untilClickable.map (fun _ => ())

/-- BasePage.type_text (lines 51-55): find the element, clear it, send the
keys. -/
def BasePage.type_text (untilPresent : Except PyErr Element)
    (textToType : String) : Except PyErr Unit :=
  (BasePage.find_element untilPresent).map (fun _ => ())

/-- BasePage.is_element_visible (lines 62-67): wraps the awaited visibility
check in try/except with a bare except clause:
`except: return False`. -/
def BasePage.is_element_visible (untilVisible : Except PyErr Element) : Bool :=
  match untilVisible with
  | .ok el => el.displayed
  | .error _ => false

/-- Modelled from the spec: allOf structural composition (spec section 4.2) —
Satisfied with the collected payloads only if every child predicate is
Satisfied on the same tick; a child Failed surfaces as Failed; otherwise
Pending. -/
def allOf {α : Type} : List (Nat → ConditionOutcome α) → Nat → ConditionOutcome (List α)
  | [], _ => .Satisfied []
  | p :: ps, k =>
    match p k, allOf ps k with
    | .Satisfied a, .Satisfied rest => .Satisfied (a :: rest)
    | .Failed e, _ => .Failed e
    | _, .Failed e => .Failed e
    | _, _ => .Pending

/-- element_is_enabled_and_visible (src/01_wait_strategies.py lines 212-216):
the returned condition re-resolves the locator on every tick and is truthy
iff the element is enabled and displayed on that same tick.  `find_element`
gives the element the driver resolves at each tick. -/
def element_is_enabled_and_visible (find_element : Nat → Element) (k : Nat) : Bool :=
  (find_element k).enabled && (find_element k).displayed

/-- Whether `sub` is a character-by-character prefix of the second list. -/
def charsPref : List Char → List Char → Bool
  | [], _ => true
  | _ :: _, [] => false
  | a :: as, b :: bs => a == b && charsPref as bs

/-- Whether `sub` occurs as a contiguous run anywhere in the list. -/
def charsOccur (sub : List Char) : List Char → Bool
  | [] => charsPref sub []
  | c :: cs => charsPref sub (c :: cs) || charsOccur sub cs

/-- Python substring test `sub in hay`. -/
def strOccurs (hay sub : String) : Bool := charsOccur sub.data hay.data

/-- driver.find_element: resolves a locator to the FIRST matching element and
raises NoSuchElementException when there is none.  `found` is the full list
of elements the locator resolves to in the current remote state. -/
def Driver.find_element (found : List Element) : Except PyErr Element :=
  match found with
  | [] => .error .NoSuchElementException
  | el :: _ => .ok el

/-- element_has_text (src/01_wait_strategies.py lines 190-194): the custom
condition calls driver.find_element — the first match — and tests the
substring against that element's "value" attribute:
`return text in element.get_attribute("value")`. -/
def element_has_text (found : List Element) (text : String) : Except PyErr Bool :=
  (Driver.find_element found).map (fun el => strOccurs el.value text)

/-- First of two distinct elements an ambiguous locator resolves to: its text
contains the sought substring, its "value" attribute does not. -/
def elemFirst : Element := ⟨true, true, "hello world", "q"⟩

/-- The second, distinct element of the ambiguous resolution. -/
def elemSecond : Element := ⟨false, true, "other text", "other"⟩

/-- Modelled from the spec: the session state carrying the process-wide
ImplicitWaitPolicy duration (spec section 4.3); 0 means disabled.
src/01_wait_strategies.py lines 50 and 66 only call
driver.implicitly_wait(10) and driver.implicitly_wait(0); the retry
mechanism itself lives in the remote driver, outside src/. -/
structure Session where
  sessionId : Nat
  implicitWait : Nat
deriving DecidableEq, Repr

/-- driver.implicitly_wait(d): replaces the active policy value. -/
def implicitly_wait (s : Session) (d : Nat) : Session :=
  { s with implicitWait := d }

/-- Outcome of one element query under the implicit-wait policy: whether the
element was found and how long the query took. -/
structure QueryResult where
  found : Bool
  elapsed : Nat
deriving DecidableEq, Repr

/-- Modelled from the spec: a RemoteStateQuery element lookup under the
ImplicitWaitPolicy.  `appearsAt` is the simulated instant at which the target
appears (none = never).  With active duration D the query internally retries
for up to D before reporting not found; with D = 0 an absent target fails
immediately. -/
def findWithPolicy (s : Session) (appearsAt : Option Nat) : QueryResult :=
  match appearsAt with
  | some arrival =>
    if arrival ≤ s.implicitWait then ⟨true, arrival⟩ else ⟨false, s.implicitWait⟩
  | none => ⟨false, s.implicitWait⟩

/-- Locator strategies the page objects use (selenium By). -/
inductive By where
  | NAME
  | ID
  | CSS_SELECTOR
  | LINK_TEXT
  | TAG_NAME
deriving DecidableEq, Repr

/-- A locator: strategy tag plus selector string. -/
abbrev Locator := By × String

/-- Observable actions a page-object method performs, in order.  `waitUntil`
is an explicit wait through WebDriverWait; `sleepFor` is a direct time.sleep
suspension outside any wait engine. -/
inductive Effect where
  | waitUntil (condition : String) (loc : Locator)
  | clearField (loc : Locator)
  | sendKeys (loc : Locator) (text : String)
  | click (loc : Locator)
  | sleepFor (ms : Nat)
  | driverGet (url : String)
  | waitUntilPageLoaded
  | readTitle
  | readUrl
  | saveScreenshot (filename : String)
  | quitDriver
deriving DecidableEq, Repr

/-- BasePage.find_element as its effect sequence: one explicit wait for
presence. -/
def PageEffects.find_element (loc : Locator) : List Effect :=
  [.waitUntil "presence_of_element_located" loc]

/-- BasePage.click_element as effects: explicit wait for clickability, then
the click. -/
def PageEffects.click_element (loc : Locator) : List Effect :=
  [.waitUntil "element_to_be_clickable" loc, .click loc]

/-- BasePage.type_text as effects: find with explicit wait, clear, send
keys. -/
def PageEffects.type_text (loc : Locator) (text : String) : List Effect :=
  PageEffects.find_element loc ++ [.clearField loc, .sendKeys loc text]

/-- GooglePage search box locator (src/01_page_object_model.py line 91). -/
def GooglePage.SEARCH_BOX : Locator := (By.NAME, "q")

/-- GooglePage search button locator (line 92). -/
def GooglePage.SEARCH_BUTTON : Locator := (By.NAME, "btnK")

/-- FacebookPage email field locator (line 133). -/
def FacebookPage.EMAIL_FIELD : Locator := (By.NAME, "email")

/-- FacebookPage password field locator (line 134). -/
def FacebookPage.PASSWORD_FIELD : Locator := (By.NAME, "pass")

/-- FacebookPage login button locator (line 135). -/
def FacebookPage.LOGIN_BUTTON : Locator := (By.NAME, "login")

/-- AmazonPage search box locator (line 183). -/
def AmazonPage.SEARCH_BOX : Locator := (By.ID, "twotabsearchtextbox")

/-- AmazonPage search button locator (line 184). -/
def AmazonPage.SEARCH_BUTTON : Locator := (By.ID, "nav-search-submit-button")

/-- The test fixture state after setup_method: the instance may or may not
carry a driver attribute, since setup can fail before webdriver.Chrome
returns (src/01_page_object_model.py lines 224-238). -/
structure TestBase where
  driver : Option Nat
deriving DecidableEq, Repr

/-- Python hasattr(self, ...) for the driver attribute. -/
def TestBase.hasattr_driver (s : TestBase) : Bool := s.driver.isSome

/-- Python attribute access self.driver: raises AttributeError when the
attribute was never assigned. -/
def TestBase.getattr_driver (s : TestBase) : Except PyErr Nat :=
  match s.driver with
  | some d => .ok d
  | none => .error .AttributeError

/-- TestBase.teardown_method (src/01_page_object_model.py lines 240-243):
`if hasattr(self, 'driver'): self.driver.quit()`.  Returns the list of
performed effects; a raised exception would surface as the error case. -/
def TestBase.teardown_method (s : TestBase) : Except PyErr (List Effect) :=
  if TestBase.hasattr_driver s then
    (TestBase.getattr_driver s).map (fun _ => [Effect.quitDriver])
  else
    .ok []

/-- GooglePage search results locator (line 93). -/
def GooglePage.SEARCH_RESULTS : Locator := (By.CSS_SELECTOR, "h3")

/-- GooglePage.get_search_results (lines 112-115):
`[result.text for result in results if result.text]` — Python string
truthiness keeps exactly the elements whose text is non-empty. -/
def GooglePage.get_search_results (results : List Element) : List String :=
  (results.filter (fun r => r.text != "")).map Element.text

/-- AmazonPage search results locator (line 185). -/
def AmazonPage.SEARCH_RESULTS : Locator := (By.CSS_SELECTOR, "h2 a span")

/-- AmazonPage.get_product_results (lines 204-207): the same comprehension
over the product results. -/
def AmazonPage.get_product_results (results : List Element) : List String :=
  (results.filter (fun r => r.text != "")).map Element.text

/-- Concrete Google search results: one with text, one with empty text. -/
def sampleGoogleResults : List Element :=
  [⟨true, true, "Selenium - Web Browser Automation", ""⟩, ⟨true, true, "", ""⟩]

/-- Concrete Amazon product results: one with text, one with empty text. -/
def sampleAmazonResults : List Element :=
  [⟨true, true, "laptop 15 inch", ""⟩, ⟨false, true, "", ""⟩]


/-- Whether an effect list contains a direct sleep of any duration. -/
def anySleep (effs : List Effect) : Bool :=
  effs.any fun ef =>
    match ef with
    | .sleepFor _ => true
    | _ => false

/-- Whether a page-object operation's outcome performed a direct sleep: only a
normal return can have slept; a propagated failure performed no sleep. -/
def hasDirectSleep (r : Except PyErr (List Effect)) : Bool :=
  match r with
  | .ok effs => anySleep effs
  | .error _ => false

/-- BasePage.find_elements as effects (lines 42-44): one explicit wait for
presence of all elements. -/
def PageEffects.find_elements (loc : Locator) : List Effect :=
  [.waitUntil "presence_of_all_elements_located" loc]

/-- BasePage.get_text as effects (lines 57-60): its only action is the awaited
find_element; reading .text is a pure read. -/
def PageEffects.get_text (loc : Locator) : List Effect :=
  PageEffects.find_element loc

/-- BasePage.is_element_visible as effects (lines 62-67): one explicit wait
for visibility. -/
def PageEffects.is_element_visible (loc : Locator) : List Effect :=
  [.waitUntil "visibility_of_element_located" loc]

/-- BasePage.wait_for_page_load as effects (lines 69-71): one explicit wait on
document.readyState. -/
def PageEffects.wait_for_page_load : List Effect :=
  [.waitUntilPageLoaded]

/-- BasePage.get_page_title as effects (lines 73-75): a pure read. -/
def PageEffects.get_page_title : List Effect :=
  [.readTitle]

/-- BasePage.get_current_url as effects (lines 77-79): a pure read. -/
def PageEffects.get_current_url : List Effect :=
  [.readUrl]

/-- BasePage.take_screenshot as effects (lines 81-85): saves the screenshot
file. -/
def PageEffects.take_screenshot (filename : String) : List Effect :=
  [.saveScreenshot filename]

/-- BasePage.find_elements (lines 42-44): returns the outcome of
`self.wait.until(EC.presence_of_all_elements_located(locator))` unchanged. -/
def BasePage.find_elements (untilAllPresent : Except PyErr (List Element)) :
    Except PyErr (List Element) :=
  untilAllPresent

/-- BasePage.wait_for_page_load (lines 69-71): returns the outcome of the
awaited readyState check unchanged. -/
def BasePage.wait_for_page_load (untilLoaded : Except PyErr Unit) :
    Except PyErr Unit :=
  untilLoaded

/-- GooglePage url (line 99). -/
def GooglePage.url : String := "https://www.google.com"

/-- GooglePage Gmail link locator (line 94). -/
def GooglePage.GMAIL_LINK : Locator := (By.LINK_TEXT, "Gmail")

/-- GooglePage Images link locator (line 95). -/
def GooglePage.IMAGES_LINK : Locator := (By.LINK_TEXT, "Images")

/-- FacebookPage url (line 141). -/
def FacebookPage.url : String := "https://www.facebook.com"

/-- FacebookPage forgot-password link locator (line 136). -/
def FacebookPage.FORGOT_PASSWORD_LINK : Locator := (By.LINK_TEXT, "Forgotten password?")

/-- FacebookPage create-account link locator (line 137). -/
def FacebookPage.CREATE_ACCOUNT_LINK : Locator := (By.LINK_TEXT, "Create new account")

/-- AmazonPage url (line 191). -/
def AmazonPage.url : String := "https://www.amazon.com"

/-- AmazonPage cart button locator (line 186). -/
def AmazonPage.CART_BUTTON : Locator := (By.ID, "nav-cart")

/-- AmazonPage account link locator (line 187). -/
def AmazonPage.ACCOUNT_LINK : Locator := (By.ID, "nav-link-accountList")

/-- GooglePage.navigate_to (lines 101-104): driver.get then
wait_for_page_load.  A failure of the awaited step propagates unmodified;
otherwise the performed effects are returned. -/
def GooglePage.navigate_to (untilLoaded : Except PyErr Unit) :
    Except PyErr (List Effect) :=
  (BasePage.wait_for_page_load untilLoaded).map fun _ =>
    [.driverGet GooglePage.url] ++ PageEffects.wait_for_page_load

/-- GooglePage.search (lines 106-110): type the query (awaiting presence),
click the search button (awaiting clickability), then `time.sleep(2)`.  A
failure of either awaited step propagates unmodified; on the normal path the
performed effects end in the direct 2000 ms sleep. -/
def GooglePage.search (query : String)
    (untilBox untilButton : Except PyErr Element) : Except PyErr (List Effect) :=
  match BasePage.type_text untilBox query with
  | .error e => .error e
  | .ok _ =>
    match BasePage.click_element untilButton with
    | .error e => .error e
    | .ok _ =>
      .ok (PageEffects.type_text GooglePage.SEARCH_BOX query
        ++ PageEffects.click_element GooglePage.SEARCH_BUTTON
        ++ [.sleepFor 2000])

/-- GooglePage.get_search_results as the full operation (lines 112-115): the
awaited find_elements, then the comprehension GooglePage.get_search_results
over its result.  (The comprehension itself keeps the source name; Lean
forbids a second declaration of it, hence the _op suffix here.) -/
def GooglePage.get_search_results_op
    (untilAllPresent : Except PyErr (List Element)) : Except PyErr (List String) :=
  (BasePage.find_elements untilAllPresent).map GooglePage.get_search_results

/-- The effect trace of GooglePage.get_search_results: its only action is the
awaited find_elements on the results locator. -/
def GooglePage.get_search_results_effects : List Effect :=
  PageEffects.find_elements GooglePage.SEARCH_RESULTS

/-- GooglePage.click_gmail (lines 117-119). -/
def GooglePage.click_gmail (untilClickable : Except PyErr Element) :
    Except PyErr (List Effect) :=
  (BasePage.click_element untilClickable).map fun _ =>
    PageEffects.click_element GooglePage.GMAIL_LINK

/-- GooglePage.click_images (lines 121-123). -/
def GooglePage.click_images (untilClickable : Except PyErr Element) :
    Except PyErr (List Effect) :=
  (BasePage.click_element untilClickable).map fun _ =>
    PageEffects.click_element GooglePage.IMAGES_LINK

/-- GooglePage.is_search_box_visible (lines 125-127): delegates to
BasePage.is_element_visible, so it inherits its bare except clause. -/
def GooglePage.is_search_box_visible (untilVisible : Except PyErr Element) : Bool :=
  BasePage.is_element_visible untilVisible

/-- FacebookPage.navigate_to (lines 143-146). -/
def FacebookPage.navigate_to (untilLoaded : Except PyErr Unit) :
    Except PyErr (List Effect) :=
  (BasePage.wait_for_page_load untilLoaded).map fun _ =>
    [.driverGet FacebookPage.url] ++ PageEffects.wait_for_page_load

/-- FacebookPage.enter_email (lines 148-150): type_text into the email
field. -/
def FacebookPage.enter_email (email : String)
    (untilField : Except PyErr Element) : Except PyErr (List Effect) :=
  (BasePage.type_text untilField email).map fun _ =>
    PageEffects.type_text FacebookPage.EMAIL_FIELD email

/-- FacebookPage.enter_password (lines 152-154). -/
def FacebookPage.enter_password (password : String)
    (untilField : Except PyErr Element) : Except PyErr (List Effect) :=
  (BasePage.type_text untilField password).map fun _ =>
    PageEffects.type_text FacebookPage.PASSWORD_FIELD password

/-- FacebookPage.click_login (lines 156-158). -/
def FacebookPage.click_login (untilClickable : Except PyErr Element) :
    Except PyErr (List Effect) :=
  (BasePage.click_element untilClickable).map fun _ =>
    PageEffects.click_element FacebookPage.LOGIN_BUTTON

/-- FacebookPage.login (lines 160-165): enter email, enter password, click
login, then `time.sleep(2)`.  A failure of any awaited step propagates
unmodified; the normal path ends in the direct 2000 ms sleep. -/
def FacebookPage.login (email password : String)
    (untilEmail untilPassword untilLogin : Except PyErr Element) :
    Except PyErr (List Effect) :=
  match FacebookPage.enter_email email untilEmail with
  | .error e => .error e
  | .ok eff₁ =>
    match FacebookPage.enter_password password untilPassword with
    | .error e => .error e
    | .ok eff₂ =>
      match FacebookPage.click_login untilLogin with
      | .error e => .error e
      | .ok eff₃ => .ok (eff₁ ++ eff₂ ++ eff₃ ++ [.sleepFor 2000])

/-- FacebookPage.click_forgot_password (lines 167-169). -/
def FacebookPage.click_forgot_password (untilClickable : Except PyErr Element) :
    Except PyErr (List Effect) :=
  (BasePage.click_element untilClickable).map fun _ =>
    PageEffects.click_element FacebookPage.FORGOT_PASSWORD_LINK

/-- FacebookPage.click_create_account (lines 171-173). -/
def FacebookPage.click_create_account (untilClickable : Except PyErr Element) :
    Except PyErr (List Effect) :=
  (BasePage.click_element untilClickable).map fun _ =>
    PageEffects.click_element FacebookPage.CREATE_ACCOUNT_LINK

/-- FacebookPage.is_email_field_visible (lines 175-177): delegates to
BasePage.is_element_visible, so it inherits its bare except clause. -/
def FacebookPage.is_email_field_visible (untilVisible : Except PyErr Element) : Bool :=
  BasePage.is_element_visible untilVisible

/-- AmazonPage.navigate_to (lines 193-196). -/
def AmazonPage.navigate_to (untilLoaded : Except PyErr Unit) :
    Except PyErr (List Effect) :=
  (BasePage.wait_for_page_load untilLoaded).map fun _ =>
    [.driverGet AmazonPage.url] ++ PageEffects.wait_for_page_load

/-- AmazonPage.search_product (lines 198-202): type the product name, click
the search button, then `time.sleep(2)`.  A failure of either awaited step
propagates unmodified; the normal path ends in the direct 2000 ms sleep. -/
def AmazonPage.search_product (productName : String)
    (untilBox untilButton : Except PyErr Element) : Except PyErr (List Effect) :=
  match BasePage.type_text untilBox productName with
  | .error e => .error e
  | .ok _ =>
    match BasePage.click_element untilButton with
    | .error e => .error e
    | .ok _ =>
      .ok (PageEffects.type_text AmazonPage.SEARCH_BOX productName
        ++ PageEffects.click_element AmazonPage.SEARCH_BUTTON
        ++ [.sleepFor 2000])

/-- AmazonPage.get_product_results as the full operation (lines 204-207): the
awaited find_elements, then the comprehension AmazonPage.get_product_results
over its result. -/
def AmazonPage.get_product_results_op
    (untilAllPresent : Except PyErr (List Element)) : Except PyErr (List String) :=
  (BasePage.find_elements untilAllPresent).map AmazonPage.get_product_results

/-- The effect trace of AmazonPage.get_product_results: its only action is the
awaited find_elements on the results locator. -/
def AmazonPage.get_product_results_effects : List Effect :=
  PageEffects.find_elements AmazonPage.SEARCH_RESULTS

/-- AmazonPage.click_cart (lines 209-211). -/
def AmazonPage.click_cart (untilClickable : Except PyErr Element) :
    Except PyErr (List Effect) :=
  (BasePage.click_element untilClickable).map fun _ =>
    PageEffects.click_element AmazonPage.CART_BUTTON

/-- AmazonPage.click_account (lines 213-215). -/
def AmazonPage.click_account (untilClickable : Except PyErr Element) :
    Except PyErr (List Effect) :=
  (BasePage.click_element untilClickable).map fun _ =>
    PageEffects.click_element AmazonPage.ACCOUNT_LINK

/-- AmazonPage.is_search_box_visible (lines 217-219): delegates to
BasePage.is_element_visible, so it inherits its bare except clause. -/
def AmazonPage.is_search_box_visible (untilVisible : Except PyErr Element) : Bool :=
  BasePage.is_element_visible untilVisible

/-- If the first `k` ticks after tick time `t` all see a transient outcome
(Pending or an ignorable Failed) with no cancellation and start before the
deadline, and tick `k` would start at or past the deadline, the loop raises
TimeoutExceeded at tick time `t + k * pollInterval` without evaluating that
tick. -/
lemma awaitConditionAux_timeout_reach {α : Type} (pred : Nat → ConditionOutcome α)
    (cancelled : Nat → Bool) (spec : WaitSpec) :
    ∀ (k fuel t a : Nat), k ≤ fuel →
      (∀ j, j < k →
        (pred (t + j * spec.pollInterval) = .Pending ∨
          ∃ e, pred (t + j * spec.pollInterval) = .Failed e ∧
            spec.ignorable.contains e = true) ∧
        cancelled (t + j * spec.pollInterval) = false ∧
        t + j * spec.pollInterval < spec.timeout) →
      spec.timeout ≤ t + k * spec.pollInterval →
      awaitConditionAux pred cancelled spec fuel t a
        = .error (.TimeoutExceeded (t + k * spec.pollInterval) (a + k) spec.message) := by
  intro k
  induction k with
  | zero =>
    intro fuel t a _ _ hT
    simp only [Nat.zero_mul, Nat.add_zero] at hT ⊢
    cases fuel with
    | zero => simp [awaitConditionAux]
    | succ f => simp [awaitConditionAux, hT]
  | succ k ih =>
    intro fuel t a hfu hj hT
    have h0 := hj 0 (Nat.succ_pos k)
    simp only [Nat.zero_mul, Nat.add_zero] at h0
    obtain ⟨hp0, hc0, ht0⟩ := h0
    cases fuel with
    | zero => omega
    | succ f =>
      have hnle : ¬ spec.timeout ≤ t := by omega
      have e1 : t + (k + 1) * spec.pollInterval
          = (t + spec.pollInterval) + k * spec.pollInterval := by ring
      have e2 : a + (k + 1) = (a + 1) + k := by ring
      rw [e1, e2]
      have hstep : awaitConditionAux pred cancelled spec (f + 1) t a
          = awaitConditionAux pred cancelled spec f (t + spec.pollInterval) (a + 1) := by
        rcases hp0 with hp | ⟨e, hpe, hce⟩
        · simp [awaitConditionAux, hnle, hp, hc0]
        · have hmem : e ∈ spec.ignorable := by
            have helem : spec.ignorable.elem e = true := hce
            exact List.mem_of_elem_eq_true helem
          simp [awaitConditionAux, hnle, hpe, hce, hmem, hc0]
      rw [hstep]
      apply ih f (t + spec.pollInterval) (a + 1) (by omega)
      · intro j hjk
        have hjj := hj (j + 1) (by omega)
        have e3 : t + (j + 1) * spec.pollInterval
            = (t + spec.pollInterval) + j * spec.pollInterval := by ring
        rw [e3] at hjj
        exact hjj
      · rw [← e1]
        exact hT

/-- If the first `k` ticks see transient outcomes with no cancellation, all
starting before the deadline, and tick `k` also starts before the deadline
and sees Satisfied, the loop returns success at tick time
`t + k * pollInterval` with `a + k + 1` attempts. -/
lemma awaitConditionAux_success_reach {α : Type} (pred : Nat → ConditionOutcome α)
    (cancelled : Nat → Bool) (spec : WaitSpec) (x : α) :
    ∀ (k fuel t a : Nat), k < fuel →
      (∀ j, j < k →
        (pred (t + j * spec.pollInterval) = .Pending ∨
          ∃ e, pred (t + j * spec.pollInterval) = .Failed e ∧
            spec.ignorable.contains e = true) ∧
        cancelled (t + j * spec.pollInterval) = false ∧
        t + j * spec.pollInterval < spec.timeout) →
      pred (t + k * spec.pollInterval) = .Satisfied x →
      t + k * spec.pollInterval < spec.timeout →
      awaitConditionAux pred cancelled spec fuel t a
        = .ok ⟨x, t + k * spec.pollInterval, a + k + 1⟩ := by
  intro k
  induction k with
  | zero =>
    intro fuel t a hfu _ hsat hlt
    simp only [Nat.zero_mul, Nat.add_zero] at hsat hlt ⊢
    cases fuel with
    | zero => omega
    | succ f =>
      have hnle : ¬ spec.timeout ≤ t := by omega
      simp [awaitConditionAux, hnle, hsat]
  | succ k ih =>
    intro fuel t a hfu hj hsat hlt
    have h0 := hj 0 (Nat.succ_pos k)
    simp only [Nat.zero_mul, Nat.add_zero] at h0
    obtain ⟨hp0, hc0, ht0⟩ := h0
    cases fuel with
    | zero => omega
    | succ f =>
      have hnle : ¬ spec.timeout ≤ t := by omega
      have e1 : t + (k + 1) * spec.pollInterval
          = (t + spec.pollInterval) + k * spec.pollInterval := by ring
      have e2 : a + (k + 1) + 1 = (a + 1) + k + 1 := by ring
      rw [e1, e2]
      have hstep : awaitConditionAux pred cancelled spec (f + 1) t a
          = awaitConditionAux pred cancelled spec f (t + spec.pollInterval) (a + 1) := by
        rcases hp0 with hp | ⟨e, hpe, hce⟩
        · simp [awaitConditionAux, hnle, hp, hc0]
        · have hmem : e ∈ spec.ignorable := by
            have helem : spec.ignorable.elem e = true := hce
            exact List.mem_of_elem_eq_true helem
          simp [awaitConditionAux, hnle, hpe, hce, hmem, hc0]
      rw [hstep]
      apply ih f (t + spec.pollInterval) (a + 1) (by omega)
      · intro j hjk
        have hjj := hj (j + 1) (by omega)
        have e3 : t + (j + 1) * spec.pollInterval
            = (t + spec.pollInterval) + j * spec.pollInterval := by ring
        rw [e3] at hjj
        exact hjj
      · rw [← e1]
        exact hsat
      · rw [← e1]
        exact hlt

/-- If the first `k` ticks see transient outcomes with no cancellation, all
starting before the deadline, and tick `k` starts before the deadline and
sees a Failed with a non-ignorable kind, the loop propagates that error at
tick time `t + k * pollInterval` with `a + k + 1` attempts, without any
further sleeping. -/
lemma awaitConditionAux_propagate_reach {α : Type} (pred : Nat → ConditionOutcome α)
    (cancelled : Nat → Bool) (spec : WaitSpec) (e : ErrorKind) :
    ∀ (k fuel t a : Nat), k < fuel →
      (∀ j, j < k →
        (pred (t + j * spec.pollInterval) = .Pending ∨
          ∃ e₂, pred (t + j * spec.pollInterval) = .Failed e₂ ∧
            spec.ignorable.contains e₂ = true) ∧
        cancelled (t + j * spec.pollInterval) = false ∧
        t + j * spec.pollInterval < spec.timeout) →
      pred (t + k * spec.pollInterval) = .Failed e →
      spec.ignorable.contains e = false →
      t + k * spec.pollInterval < spec.timeout →
      awaitConditionAux pred cancelled spec fuel t a
        = .error (.Propagated e (t + k * spec.pollInterval) (a + k + 1)) := by
  intro k
  induction k with
  | zero =>
    intro fuel t a hfu _ hfail hfatal hlt
    simp only [Nat.zero_mul, Nat.add_zero] at hfail hlt ⊢
    cases fuel with
    | zero => omega
    | succ f =>
      have hnle : ¬ spec.timeout ≤ t := by omega
      have hnmem : e ∉ spec.ignorable := by
        intro hm
        have helem : spec.ignorable.elem e = true := List.elem_eq_true_of_mem hm
        have hf : spec.ignorable.elem e = false := hfatal
        rw [hf] at helem
        cases helem
      simp [awaitConditionAux, hnle, hfail, hfatal, hnmem]
  | succ k ih =>
    intro fuel t a hfu hj hfail hfatal hlt
    have h0 := hj 0 (Nat.succ_pos k)
    simp only [Nat.zero_mul, Nat.add_zero] at h0
    obtain ⟨hp0, hc0, ht0⟩ := h0
    cases fuel with
    | zero => omega
    | succ f =>
      have hnle : ¬ spec.timeout ≤ t := by omega
      have e1 : t + (k + 1) * spec.pollInterval
          = (t + spec.pollInterval) + k * spec.pollInterval := by ring
      have e2 : a + (k + 1) + 1 = (a + 1) + k + 1 := by ring
      rw [e1, e2]
      have hstep : awaitConditionAux pred cancelled spec (f + 1) t a
          = awaitConditionAux pred cancelled spec f (t + spec.pollInterval) (a + 1) := by
        rcases hp0 with hp | ⟨e₂, hpe, hce⟩
        · simp [awaitConditionAux, hnle, hp, hc0]
        · have hmem : e₂ ∈ spec.ignorable := by
            have helem : spec.ignorable.elem e₂ = true := hce
            exact List.mem_of_elem_eq_true helem
          simp [awaitConditionAux, hnle, hpe, hce, hmem, hc0]
      rw [hstep]
      apply ih f (t + spec.pollInterval) (a + 1) (by omega)
      · intro j hjk
        have hjj := hj (j + 1) (by omega)
        have e3 : t + (j + 1) * spec.pollInterval
            = (t + spec.pollInterval) + j * spec.pollInterval := by ring
        rw [e3] at hjj
        exact hjj
      · rw [← e1]
        exact hfail
      · exact hfatal
      · rw [← e1]
        exact hlt

/-- The loop's outcome depends only on the predicate and the cancellation
signal at instants strictly before the nominal deadline: the engine never
evaluates either of them at or past the deadline. -/
lemma awaitConditionAux_congr {α : Type} (p₁ p₂ : Nat → ConditionOutcome α)
    (c₁ c₂ : Nat → Bool) (spec : WaitSpec)
    (hp : ∀ s, s < spec.timeout → p₁ s = p₂ s)
    (hc : ∀ s, s < spec.timeout → c₁ s = c₂ s) :
    ∀ (fuel t a : Nat),
      awaitConditionAux p₁ c₁ spec fuel t a = awaitConditionAux p₂ c₂ spec fuel t a := by
  intro fuel
  induction fuel with
  | zero => intro t a; rfl
  | succ f ih =>
    intro t a
    by_cases hT : spec.timeout ≤ t
    · simp [awaitConditionAux, hT]
    · have ht : t < spec.timeout := by omega
      simp only [awaitConditionAux, hT, if_false]
      rw [hp t ht, hc t ht]
      cases p₂ t with
      | Pending => by_cases hct : c₂ t <;> simp [hct, ih]
      | Satisfied y => rfl
      | Failed e =>
        by_cases hie : spec.ignorable.contains e <;> by_cases hct : c₂ t <;>
          simp [hie, hct, ih]


/-- C1: for every wait specification with 0 < P ≤ T, if the predicate is never
Satisfied during the run (every tick sees Pending or an ignorable Failed, and
no cancellation), awaitCondition raises TimeoutExceeded with elapsed time
`ceil(T/P) * P`, which lies in the half-open interval [T, T+P); moreover the
engine's outcome depends only on the predicate and cancellation signal at
instants strictly before the nominal deadline, i.e. it never starts an
evaluation tick at or after the deadline. -/
theorem awaitCondition_timeout_within_one_poll {α : Type} (spec : WaitSpec)
    (pred : Nat → ConditionOutcome α) (cancelled : Nat → Bool)
    (hP : 0 < spec.pollInterval) (hPT : spec.pollInterval ≤ spec.timeout)
    (hpred : ∀ s, pred s = .Pending ∨
      ∃ e, pred s = .Failed e ∧ spec.ignorable.contains e = true)
    (hcan : ∀ s, cancelled s = false) :
    awaitCondition pred cancelled spec
      = .error (.TimeoutExceeded
          (((spec.timeout + spec.pollInterval - 1) / spec.pollInterval) * spec.pollInterval)
          ((spec.timeout + spec.pollInterval - 1) / spec.pollInterval) spec.message)
    ∧ spec.timeout
        ≤ ((spec.timeout + spec.pollInterval - 1) / spec.pollInterval) * spec.pollInterval
    ∧ ((spec.timeout + spec.pollInterval - 1) / spec.pollInterval) * spec.pollInterval
        < spec.timeout + spec.pollInterval
    ∧ ∀ (pred₂ : Nat → ConditionOutcome α) (cancelled₂ : Nat → Bool),
        (∀ s, s < spec.timeout → pred₂ s = pred s) →
        (∀ s, s < spec.timeout → cancelled₂ s = cancelled s) →
        awaitCondition pred₂ cancelled₂ spec = awaitCondition pred cancelled spec := by
  have hq := Nat.div_add_mod (spec.timeout - 1) spec.pollInterval
  have hr : (spec.timeout - 1) % spec.pollInterval < spec.pollInterval :=
    Nat.mod_lt _ hP
  have hT1 : spec.timeout + spec.pollInterval - 1
      = (spec.timeout - 1) + spec.pollInterval := by omega
  have hk0eq : (spec.timeout + spec.pollInterval - 1) / spec.pollInterval
      = (spec.timeout - 1) / spec.pollInterval + 1 := by
    rw [hT1, Nat.add_div_right _ hP]
  have hk0P : ((spec.timeout + spec.pollInterval - 1) / spec.pollInterval) * spec.pollInterval
      = spec.pollInterval * ((spec.timeout - 1) / spec.pollInterval) + spec.pollInterval := by
    rw [hk0eq]; ring
  have hlb : spec.timeout
      ≤ ((spec.timeout + spec.pollInterval - 1) / spec.pollInterval) * spec.pollInterval := by
    omega
  have hub : ((spec.timeout + spec.pollInterval - 1) / spec.pollInterval) * spec.pollInterval
      < spec.timeout + spec.pollInterval := by
    omega
  have hmono : (spec.timeout - 1) / spec.pollInterval ≤ spec.timeout / spec.pollInterval :=
    Nat.div_le_div_right (by omega)
  have hticks : ∀ j, j < (spec.timeout + spec.pollInterval - 1) / spec.pollInterval →
      j * spec.pollInterval < spec.timeout := by
    intro j hjk
    have hjle : j ≤ (spec.timeout - 1) / spec.pollInterval := by omega
    have hjm := Nat.mul_le_mul_right spec.pollInterval hjle
    have hcomm : (spec.timeout - 1) / spec.pollInterval * spec.pollInterval
        = spec.pollInterval * ((spec.timeout - 1) / spec.pollInterval) :=
      Nat.mul_comm _ _
    omega
  refine ⟨?_, hlb, hub, ?_⟩
  · have hmain := awaitConditionAux_timeout_reach pred cancelled spec
      ((spec.timeout + spec.pollInterval - 1) / spec.pollInterval)
      (spec.timeout / spec.pollInterval + 2) 0 0
      (by omega)
      (by
        intro j hjk
        refine ⟨hpred _, hcan _, ?_⟩
        have := hticks j hjk
        omega)
      (by
        have : spec.timeout
            ≤ ((spec.timeout + spec.pollInterval - 1) / spec.pollInterval)
              * spec.pollInterval := hlb
        omega)
    simpa [awaitCondition] using hmain
  · intro pred₂ cancelled₂ hp2 hc2
    unfold awaitCondition
    exact awaitConditionAux_congr pred₂ pred cancelled₂ cancelled spec hp2 hc2 _ 0 0

/-- C1 witness: with timeout 2000 ms, poll 250 ms and a never-satisfied
predicate, the engine raises TimeoutExceeded with elapsed 2000 ms, inside
[2000, 2250). -/
theorem awaitCondition_timeout_within_one_poll_witness :
    awaitCondition predNever cancelNever specFluent
      = .error (.TimeoutExceeded
          (((specFluent.timeout + specFluent.pollInterval - 1) / specFluent.pollInterval)
            * specFluent.pollInterval)
          ((specFluent.timeout + specFluent.pollInterval - 1) / specFluent.pollInterval)
          specFluent.message)
    ∧ specFluent.timeout
        ≤ ((specFluent.timeout + specFluent.pollInterval - 1) / specFluent.pollInterval)
          * specFluent.pollInterval
    ∧ ((specFluent.timeout + specFluent.pollInterval - 1) / specFluent.pollInterval)
          * specFluent.pollInterval
        < specFluent.timeout + specFluent.pollInterval := by
  have h := awaitCondition_timeout_within_one_poll specFluent predNever cancelNever
    (by decide) (by decide) (fun s => Or.inl rfl) (fun s => rfl)
  exact ⟨h.1, h.2.1, h.2.2.1⟩

/-- C2 (amended): for a wait specification with 0 < P ≤ T and a predicate that
first becomes Satisfied at simulated time `tsat`, success requires that the
first evaluation tick at or after `tsat` (tick index `k`, at time k*P) starts
before the deadline T; in that case awaitCondition returns success with
elapsed k*P ∈ [tsat, tsat+P) and attempt count k+1.  (The unamended claim —
success for every tsat ≤ T — fails when the observing tick would start at or
after the deadline; see the counterexample.) -/
theorem awaitCondition_success_observed_before_deadline {α : Type} (spec : WaitSpec)
    (pred : Nat → ConditionOutcome α) (cancelled : Nat → Bool) (x : α) (tsat k : Nat)
    (hP : 0 < spec.pollInterval) (hPT : spec.pollInterval ≤ spec.timeout)
    (hpred : ∀ s, pred s = if tsat ≤ s then .Satisfied x else .Pending)
    (hcan : ∀ s, cancelled s = false)
    (hk1 : tsat ≤ k * spec.pollInterval)
    (hk2 : ∀ j, j < k → j * spec.pollInterval < tsat)
    (hkT : k * spec.pollInterval < spec.timeout) :
    awaitCondition pred cancelled spec = .ok ⟨x, k * spec.pollInterval, k + 1⟩
    ∧ tsat ≤ k * spec.pollInterval
    ∧ k * spec.pollInterval < tsat + spec.pollInterval := by
  have hkfuel : k ≤ spec.timeout / spec.pollInterval :=
    (Nat.le_div_iff_mul_le hP).2 (le_of_lt hkT)
  have hub : k * spec.pollInterval < tsat + spec.pollInterval := by
    cases k with
    | zero => simp [Nat.zero_mul]; omega
    | succ k' =>
      have hk' := hk2 k' (Nat.lt_succ_self k')
      have hsucc : (k' + 1) * spec.pollInterval
          = k' * spec.pollInterval + spec.pollInterval := Nat.succ_mul _ _
      omega
  have hmain := awaitConditionAux_success_reach pred cancelled spec x k
    (spec.timeout / spec.pollInterval + 2) 0 0
    (by omega)
    (by
      intro j hjk
      refine ⟨Or.inl ?_, hcan _, ?_⟩
      · rw [hpred]
        have := hk2 j hjk
        simp only [Nat.zero_add]
        rw [if_neg (by omega)]
      · have hjlt : j * spec.pollInterval < k * spec.pollInterval :=
          (Nat.mul_lt_mul_right hP).2 hjk
        omega)
    (by
      rw [hpred]
      simp only [Nat.zero_add]
      rw [if_pos hk1])
    (by omega)
  refine ⟨?_, hk1, hub⟩
  simpa [awaitCondition] using hmain

/-- C2 witness: the spec's scenario.  With timeout 2000 ms, poll 250 ms and
presence appearing at 600 ms, the engine succeeds at the tick starting at
750 ms with 4 attempts: attempts lie in [2,4] and elapsed in [600,850] ms. -/
theorem awaitCondition_success_observed_before_deadline_witness :
    awaitCondition predFrom600 cancelNever specFluent = .ok ⟨(), 750, 4⟩
    ∧ 2 ≤ 4 ∧ 4 ≤ 4 ∧ 600 ≤ 750 ∧ 750 ≤ 850 := by
  have h := awaitCondition_success_observed_before_deadline specFluent predFrom600
    cancelNever () 600 3 (by decide) (by decide) (fun s => rfl) (fun s => rfl)
    (by decide) (by decide) (by decide)
  refine ⟨?_, by decide, by decide, by decide, by decide⟩
  simpa [specFluent] using h.1

/-- C2 counterexample: the claim as stated fails.  With timeout 2000 ms and
poll 250 ms, a predicate that first becomes Satisfied at simulated time
2000 ms — which satisfies tsat ≤ T — is never observed: the engine raises
TimeoutExceeded at elapsed 2000 ms after 8 attempts instead of returning a
successful PollResult, because the observing tick would start at the
deadline. -/
theorem awaitCondition_success_at_deadline_counterexample :
    (2000 ≤ specFluent.timeout)
    ∧ awaitCondition predFrom2000 cancelNever specFluent
        = .error (.TimeoutExceeded 2000 8 none) := by decide

/-- C3: if the first `k` evaluation ticks see transient outcomes (no
cancellation) and tick `k`, starting before the deadline, reports Failed with
an error kind outside the ignorable set, awaitCondition propagates that error
at once: elapsed is exactly the tick's start time k*P — no further poll
interval is slept and the timeout is not waited out — and the attempt count is
k+1.  In particular on attempt 1 (k = 0) the elapsed time is 0, far below the
timeout. -/
theorem awaitCondition_infrastructure_failfast {α : Type} (spec : WaitSpec)
    (pred : Nat → ConditionOutcome α) (cancelled : Nat → Bool) (e : ErrorKind) (k : Nat)
    (hP : 0 < spec.pollInterval)
    (hprior : ∀ j, j < k →
      (pred (j * spec.pollInterval) = .Pending ∨
        ∃ e₂, pred (j * spec.pollInterval) = .Failed e₂ ∧
          spec.ignorable.contains e₂ = true) ∧
      cancelled (j * spec.pollInterval) = false)
    (hkT : k * spec.pollInterval < spec.timeout)
    (hfail : pred (k * spec.pollInterval) = .Failed e)
    (hfatal : spec.ignorable.contains e = false) :
    awaitCondition pred cancelled spec
      = .error (.Propagated e (k * spec.pollInterval) (k + 1))
    ∧ k * spec.pollInterval < spec.timeout := by
  have hkfuel : k ≤ spec.timeout / spec.pollInterval :=
    (Nat.le_div_iff_mul_le hP).2 (le_of_lt hkT)
  have hmain := awaitConditionAux_propagate_reach pred cancelled spec e k
    (spec.timeout / spec.pollInterval + 2) 0 0
    (by omega)
    (by
      intro j hjk
      have hj := hprior j hjk
      have hjlt : j * spec.pollInterval < k * spec.pollInterval :=
        (Nat.mul_lt_mul_right hP).2 hjk
      refine ⟨?_, ?_, by omega⟩
      · simpa only [Nat.zero_add] using hj.1
      · simpa only [Nat.zero_add] using hj.2)
    (by simpa only [Nat.zero_add] using hfail)
    hfatal
    (by omega)
  refine ⟨?_, hkT⟩
  simpa [awaitCondition] using hmain

/-- C3 witness: a SessionLost infrastructure error on the first attempt
propagates immediately with elapsed 0 ms, far below the 2000 ms timeout. -/
theorem awaitCondition_infrastructure_failfast_witness :
    awaitCondition predSessionLost cancelNever specFluent
      = .error (.Propagated .SessionLost 0 1)
    ∧ (0 : Nat) < specFluent.timeout := by
  have h := awaitCondition_infrastructure_failfast specFluent predSessionLost
    cancelNever .SessionLost 0 (by decide)
    (fun j hj => absurd hj (Nat.not_lt_zero j)) (by decide) rfl (by decide)
  refine ⟨?_, by decide⟩
  simpa using h.1

/-- C4 counterexample: the claim fails on the code.  BasePage.is_element_visible
catches every failure raised by its awaited step — here TimeoutExceeded and an
infrastructure SessionLost error — and converts it into the normal return
value False instead of propagating it. -/
theorem is_element_visible_swallows_failures :
    BasePage.is_element_visible (.error .TimeoutException) = false
    ∧ BasePage.is_element_visible (.error (.WebDriverError .SessionLost)) = false :=
  ⟨rfl, rfl⟩

/-- C4 (amended): every page-object operation that awaits a condition
propagates any failure of the awaited step — in whichever position it occurs —
unmodified to its caller: all BasePage primitives (find_element,
find_elements, get_text, click_element, type_text, wait_for_page_load) and
every derived page operation (navigate_to, search, get_search_results,
click_gmail, click_images, enter_email, enter_password, click_login, login,
click_forgot_password, click_create_account, search_product,
get_product_results, click_cart, click_account, on their respective pages).
The sole exception, forced by the counterexample, is
BasePage.is_element_visible — whose bare except clause converts every failure
into the normal return False (and on success returns the displayed flag) —
together with the three wrappers that merely delegate to it
(GooglePage.is_search_box_visible, FacebookPage.is_email_field_visible,
AmazonPage.is_search_box_visible). -/
theorem page_operations_failure_propagation (e : PyErr)
    (textToType query email password productName : String) (el : Element)
    (u u₂ : Except PyErr Element) :
    BasePage.find_element (.error e) = .error e
    ∧ BasePage.find_elements (.error e) = .error e
    ∧ BasePage.get_text (.error e) = .error e
    ∧ BasePage.click_element (.error e) = .error e
    ∧ BasePage.type_text (.error e) textToType = .error e
    ∧ BasePage.wait_for_page_load (.error e) = .error e
    ∧ GooglePage.navigate_to (.error e) = .error e
    ∧ GooglePage.search query (.error e) u = .error e
    ∧ GooglePage.search query (.ok el) (.error e) = .error e
    ∧ GooglePage.get_search_results_op (.error e) = .error e
    ∧ GooglePage.click_gmail (.error e) = .error e
    ∧ GooglePage.click_images (.error e) = .error e
    ∧ FacebookPage.navigate_to (.error e) = .error e
    ∧ FacebookPage.enter_email email (.error e) = .error e
    ∧ FacebookPage.enter_password password (.error e) = .error e
    ∧ FacebookPage.click_login (.error e) = .error e
    ∧ FacebookPage.login email password (.error e) u u₂ = .error e
    ∧ FacebookPage.login email password (.ok el) (.error e) u = .error e
    ∧ FacebookPage.login email password (.ok el) (.ok el) (.error e) = .error e
    ∧ FacebookPage.click_forgot_password (.error e) = .error e
    ∧ FacebookPage.click_create_account (.error e) = .error e
    ∧ AmazonPage.navigate_to (.error e) = .error e
    ∧ AmazonPage.search_product productName (.error e) u = .error e
    ∧ AmazonPage.search_product productName (.ok el) (.error e) = .error e
    ∧ AmazonPage.get_product_results_op (.error e) = .error e
    ∧ AmazonPage.click_cart (.error e) = .error e
    ∧ AmazonPage.click_account (.error e) = .error e
    ∧ BasePage.is_element_visible (.error e) = false
    ∧ GooglePage.is_search_box_visible (.error e) = false
    ∧ FacebookPage.is_email_field_visible (.error e) = false
    ∧ AmazonPage.is_search_box_visible (.error e) = false
    ∧ BasePage.is_element_visible (.ok el) = el.displayed :=
  ⟨rfl, rfl, rfl, rfl, rfl, rfl, rfl, rfl, rfl, rfl, rfl, rfl, rfl, rfl, rfl,
    rfl, rfl, rfl, rfl, rfl, rfl, rfl, rfl, rfl, rfl, rfl, rfl, rfl, rfl, rfl,
    rfl, rfl⟩

/-- C5: allOf(p₁, p₂) is Satisfied at tick k exactly when both children are
Satisfied at that same tick k — so a tick where p₁ was Satisfied only earlier
while p₂ is not yet Satisfied cannot report Satisfied, since the outcome at
tick k depends only on the children's outcomes at tick k; and the source's
conjunction condition element_is_enabled_and_visible is likewise truthy at a
tick exactly when the element is enabled and displayed on that same tick. -/
theorem allOf_satisfied_iff_both_same_tick {α : Type}
    (p₁ p₂ : Nat → ConditionOutcome α) (find_element : Nat → Element) (k : Nat) :
    ((allOf [p₁, p₂] k).isSatisfied = true
      ↔ (p₁ k).isSatisfied = true ∧ (p₂ k).isSatisfied = true)
    ∧ (element_is_enabled_and_visible find_element k = true
      ↔ (find_element k).enabled = true ∧ (find_element k).displayed = true) := by
  constructor
  · cases h1 : p₁ k <;> cases h2 : p₂ k <;>
      simp [allOf, h1, h2, ConditionOutcome.isSatisfied]
  · simp [element_is_enabled_and_visible, Bool.and_eq_true]

/-- C6 counterexample: the claim fails on the code.  A locator resolving to
two distinct elements, the first of whose TEXT contains the substring while
its "value" attribute does not, makes element_has_text return the normal
outcome `ok false`: it neither reports Failed for the ambiguity nor tests the
element's text. -/
theorem element_has_text_counterexample :
    elemFirst ≠ elemSecond
    ∧ strOccurs elemFirst.text "hello" = true
    ∧ element_has_text [elemFirst, elemSecond] "hello" = .ok false := by decide

/-- C6 (amended): element_has_text silently resolves an ambiguous locator to
the FIRST match — its result on a multi-element resolution equals its result
on the first element alone, never a Failed outcome for ambiguity — and the
substring is tested against that first element's "value" attribute, not its
text; an empty resolution raises NoSuchElementException. -/
theorem element_has_text_first_match (el : Element) (rest : List Element)
    (text : String) :
    element_has_text (el :: rest) text = element_has_text [el] text
    ∧ element_has_text (el :: rest) text = .ok (strOccurs el.value text)
    ∧ element_has_text [] text = .error .NoSuchElementException :=
  ⟨rfl, rfl, rfl⟩

/-- C7: a session holds exactly one implicit-wait policy value at a time;
implicitly_wait replaces it atomically — after setting d₂ the session state,
and therefore every subsequent query, is identical to one on which d₁ was
never set — and setting the duration to zero disables the policy: queries for
a target that is absent at query time fail immediately with elapsed 0. -/
theorem implicit_wait_policy_single_replace (s : Session) (d₁ d₂ arrival : Nat) :
    implicitly_wait (implicitly_wait s d₁) d₂ = implicitly_wait s d₂
    ∧ (implicitly_wait s d₂).implicitWait = d₂
    ∧ (∀ q, findWithPolicy (implicitly_wait (implicitly_wait s d₁) d₂) q
        = findWithPolicy (implicitly_wait s d₂) q)
    ∧ (0 < arrival →
        findWithPolicy (implicitly_wait s 0) (some arrival) = ⟨false, 0⟩)
    ∧ findWithPolicy (implicitly_wait s 0) none = ⟨false, 0⟩ := by
  refine ⟨rfl, rfl, fun q => rfl, ?_, rfl⟩
  intro ha
  have hno : ¬ arrival ≤ (0 : Nat) := by omega
  simp [findWithPolicy, implicitly_wait, hno]

/-- C7 witness: the source's sequence — implicitly_wait(10) then
implicitly_wait(0) — leaves a session identical to one set to 0 directly, and
a target appearing only at instant 1 then fails immediately with elapsed 0. -/
theorem implicit_wait_policy_single_replace_witness :
    findWithPolicy (implicitly_wait (Session.mk 0 0) 0) (some 1) = ⟨false, 0⟩
    ∧ implicitly_wait (implicitly_wait (Session.mk 0 0) 10) 0
        = implicitly_wait (Session.mk 0 0) 0 := by
  have h := implicit_wait_policy_single_replace (Session.mk 0 0) 10 0 1
  exact ⟨h.2.2.2.1 (by decide), h.1⟩

/-- C8 counterexample: the claim fails on the code.  GooglePage.search,
FacebookPage.login and AmazonPage.search_product each perform a direct
2000 ms sleep on their normal path, outside any wait engine. -/
theorem page_objects_sleep_counterexample :
    hasDirectSleep (GooglePage.search "Selenium automation testing"
      (.ok elemFirst) (.ok elemFirst)) = true
    ∧ hasDirectSleep (FacebookPage.login "test@example.com" "testpassword"
      (.ok elemFirst) (.ok elemFirst) (.ok elemFirst)) = true
    ∧ hasDirectSleep (AmazonPage.search_product "laptop"
      (.ok elemFirst) (.ok elemFirst)) = true := by decide

/-- C8 (amended): exactly three page-object operations sleep directly —
GooglePage.search, FacebookPage.login and AmazonPage.search_product each
perform a direct 2000 ms sleep on their normal path; every other page-object
operation never sleeps directly, whatever its awaited steps return: the
navigations, field entries, clicks, result collections and visibility checks
of all three pages, and every BasePage primitive (find_element,
find_elements, click_element, type_text, get_text, is_element_visible,
wait_for_page_load, get_page_title, get_current_url, take_screenshot) — their
only waiting is the explicit wait step. -/
theorem page_objects_sleep_profile
    (query email password productName filename textToType : String)
    (loc : Locator) (el₁ el₂ el₃ : Element)
    (u : Except PyErr Element) (uld : Except PyErr Unit) :
    hasDirectSleep (GooglePage.search query (.ok el₁) (.ok el₂)) = true
    ∧ hasDirectSleep (FacebookPage.login email password
        (.ok el₁) (.ok el₂) (.ok el₃)) = true
    ∧ hasDirectSleep (AmazonPage.search_product productName
        (.ok el₁) (.ok el₂)) = true
    ∧ hasDirectSleep (GooglePage.navigate_to uld) = false
    ∧ anySleep GooglePage.get_search_results_effects = false
    ∧ hasDirectSleep (GooglePage.click_gmail u) = false
    ∧ hasDirectSleep (GooglePage.click_images u) = false
    ∧ hasDirectSleep (FacebookPage.navigate_to uld) = false
    ∧ hasDirectSleep (FacebookPage.enter_email email u) = false
    ∧ hasDirectSleep (FacebookPage.enter_password password u) = false
    ∧ hasDirectSleep (FacebookPage.click_login u) = false
    ∧ hasDirectSleep (FacebookPage.click_forgot_password u) = false
    ∧ hasDirectSleep (FacebookPage.click_create_account u) = false
    ∧ hasDirectSleep (AmazonPage.navigate_to uld) = false
    ∧ anySleep AmazonPage.get_product_results_effects = false
    ∧ hasDirectSleep (AmazonPage.click_cart u) = false
    ∧ hasDirectSleep (AmazonPage.click_account u) = false
    ∧ anySleep (PageEffects.find_element loc) = false
    ∧ anySleep (PageEffects.find_elements loc) = false
    ∧ anySleep (PageEffects.click_element loc) = false
    ∧ anySleep (PageEffects.type_text loc textToType) = false
    ∧ anySleep (PageEffects.get_text loc) = false
    ∧ anySleep (PageEffects.is_element_visible loc) = false
    ∧ anySleep PageEffects.wait_for_page_load = false
    ∧ anySleep PageEffects.get_page_title = false
    ∧ anySleep PageEffects.get_current_url = false
    ∧ anySleep (PageEffects.take_screenshot filename) = false := by
  cases u <;> cases uld <;>
    simp [hasDirectSleep, anySleep, GooglePage.search, FacebookPage.login,
      AmazonPage.search_product, GooglePage.navigate_to,
      FacebookPage.navigate_to, AmazonPage.navigate_to,
      GooglePage.click_gmail, GooglePage.click_images,
      FacebookPage.enter_email, FacebookPage.enter_password,
      FacebookPage.click_login, FacebookPage.click_forgot_password,
      FacebookPage.click_create_account, AmazonPage.click_cart,
      AmazonPage.click_account, GooglePage.get_search_results_effects,
      AmazonPage.get_product_results_effects, BasePage.type_text,
      BasePage.click_element, BasePage.find_element, BasePage.find_elements,
      BasePage.wait_for_page_load, PageEffects.find_element,
      PageEffects.find_elements, PageEffects.click_element,
      PageEffects.type_text, PageEffects.get_text,
      PageEffects.is_element_visible, PageEffects.wait_for_page_load,
      PageEffects.get_page_title, PageEffects.get_current_url,
      PageEffects.take_screenshot, Except.map, List.any_append]

/-- C9: teardown_method is total over every state reachable after setup: it
returns normally on all states, quitting the driver exactly when the driver
attribute exists, so calling it after a setup that failed before creating the
driver returns normally; the unguarded attribute access on a driverless
instance is what would raise AttributeError. -/
theorem teardown_method_total (s : TestBase) :
    TestBase.teardown_method s
      = .ok (if s.driver.isSome then [Effect.quitDriver] else [])
    ∧ TestBase.getattr_driver ⟨none⟩ = .error .AttributeError := by
  refine ⟨?_, rfl⟩
  cases hd : s.driver <;>
    simp [TestBase.teardown_method, TestBase.hasattr_driver,
      TestBase.getattr_driver, Except.map, hd]

/-- C10: every string returned by GooglePage.get_search_results and by
AmazonPage.get_product_results is non-empty — both comprehensions filter out
elements whose text is empty before collecting the texts. -/
theorem search_results_nonempty :
    (∀ (results : List Element) (s : String),
      s ∈ GooglePage.get_search_results results → s ≠ "")
    ∧ (∀ (results : List Element) (s : String),
      s ∈ AmazonPage.get_product_results results → s ≠ "") := by
  constructor
  all_goals
    intro results s hs
    simp only [GooglePage.get_search_results, AmazonPage.get_product_results,
      List.mem_map, List.mem_filter, bne_iff_ne, ne_eq] at hs
    obtain ⟨r, ⟨_, hkeep⟩, heq⟩ := hs
    subst heq
    exact hkeep

/-- C10 witness: on concrete result lists containing an element with empty
text, the returned strings are non-empty. -/
theorem search_results_nonempty_witness :
    ("Selenium - Web Browser Automation" ≠ "") ∧ ("laptop 15 inch" ≠ "") := by
  have h := search_results_nonempty
  exact ⟨h.1 sampleGoogleResults _ (by decide),
    h.2 sampleAmazonResults _ (by decide)⟩
